import Mathlib

/-!
Verification of the NeuroHabit Habit Progress & Risk Engine.

The frontend statistics helpers (`calculateTotal`, `calculateAverage`,
`calculateStreak`, `generateSampleData`, the `chartData` fallback of the
`HabitGraph` component) and the `Pet` component state logic are embedded
directly from the TypeScript sources.  The backend components
(StreakCalculator, GamificationEngine, RiskPredictor) are not part of the
available sources; they are modelled from the design specification, as marked
on each such definition.

JavaScript `number` values that hold integer counts are embedded as `Int`;
values produced by division are embedded as `Rat`.
-/

/-- One entry of the `HabitGraph` chart data: `{ date, completions, target? }`. -/
structure DataPoint where
  date : String
  completions : Int
  target : Option Int
  deriving DecidableEq

/-- `calculateTotal` from HabitGraph: `data.reduce((sum, item) => sum + item.completions, 0)`. -/
def calculateTotal (data : List DataPoint) : Int :=
  data.foldl (fun sum item => sum + item.completions) 0

/-- `calculateAverage` from HabitGraph: `0` for empty data, else total divided by length. -/
def calculateAverage (data : List DataPoint) : Rat :=
  if data.length = 0 then 0 else (calculateTotal data : Rat) / (data.length : Rat)

/-- The backward loop of `calculateStreak`: walking the data from the most recent
entry backwards (hence over the reversed list), counting entries with positive
`completions` and stopping at the first entry without (the `break`). -/
def streakFromEnd : List DataPoint → Nat
  | [] => 0
  | item :: rest => if item.completions > 0 then streakFromEnd rest + 1 else 0

/-- `calculateStreak` from HabitGraph: counts, from the end of the data backwards,
how many consecutive entries have `completions > 0`. -/
def calculateStreak (data : List DataPoint) : Nat :=
  streakFromEnd data.reverse

/-- `generateSampleData` from HabitGraph: 14 entries, one per day, each with
`completions = Math.floor(Math.random() * 8) + 2` and `target = 7`.  The random
draws (each in `{0..7}`) and the formatted date labels are explicit parameters. -/
def generateSampleData (rand : Fin 14 → Fin 8) (dateLabel : Fin 14 → String) :
    List DataPoint :=
  (List.finRange 14).map fun i =>
    { date := dateLabel i, completions := ((rand i : Nat) : Int) + 2, target := some 7 }

/-- The `HabitGraph` fallback: `data.length > 0 ? data : generateSampleData()`. -/
def chartData (data : List DataPoint) (rand : Fin 14 → Fin 8)
    (dateLabel : Fin 14 → String) : List DataPoint :=
  if data.length > 0 then data else generateSampleData rand dateLabel

lemma streakFromEnd_of_all_pos (l : List DataPoint)
    (h : ∀ x ∈ l, 0 < x.completions) : streakFromEnd l = l.length := by
  induction l with
  | nil => rfl
  | cons x xs ih =>
    have hx : 0 < x.completions := h x (List.mem_cons_self x xs)
    simp only [streakFromEnd, if_pos hx, List.length_cons]
    rw [ih fun y hy => h y (List.mem_cons_of_mem x hy)]

lemma streakFromEnd_append_of_all_pos (l m : List DataPoint)
    (h : ∀ x ∈ l, 0 < x.completions) :
    streakFromEnd (l ++ m) = l.length + streakFromEnd m := by
  induction l with
  | nil => simp
  | cons x xs ih =>
    have hx : 0 < x.completions := h x (List.mem_cons_self x xs)
    simp only [List.cons_append, streakFromEnd, if_pos hx, List.length_cons,
      List.append_eq]
    rw [ih fun y hy => h y (List.mem_cons_of_mem x hy)]
    omega

lemma streakFromEnd_of_head_zero (x : DataPoint) (rest : List DataPoint)
    (hx : x.completions = 0) : streakFromEnd (x :: rest) = 0 := by
  simp [streakFromEnd, hx]

lemma calculateStreak_all_pos (data : List DataPoint)
    (h : ∀ x ∈ data, 0 < x.completions) : calculateStreak data = data.length := by
  unfold calculateStreak
  rw [streakFromEnd_of_all_pos data.reverse (fun x hx => h x (List.mem_reverse.mp hx))]
  exact data.length_reverse

lemma calculateStreak_gap (pre : List DataPoint) (gap : DataPoint)
    (post : List DataPoint) (hgap : gap.completions = 0)
    (hpost : ∀ x ∈ post, 0 < x.completions) :
    calculateStreak (pre ++ gap :: post) = post.length := by
  unfold calculateStreak
  have hrev : (pre ++ gap :: post).reverse = post.reverse ++ gap :: pre.reverse := by
    simp
  rw [hrev,
    streakFromEnd_append_of_all_pos post.reverse (gap :: pre.reverse)
      (fun x hx => hpost x (List.mem_reverse.mp hx)),
    streakFromEnd_of_head_zero gap pre.reverse hgap, post.length_reverse]
  omega

lemma chartData_of_ne_nil (data : List DataPoint) (rand : Fin 14 → Fin 8)
    (dateLabel : Fin 14 → String) (h : data ≠ []) :
    chartData data rand dateLabel = data := by
  unfold chartData
  rw [if_pos (List.length_pos.mpr h)]

lemma chartData_nil (rand : Fin 14 → Fin 8) (dateLabel : Fin 14 → String) :
    chartData [] rand dateLabel = generateSampleData rand dateLabel := rfl

lemma generateSampleData_all_pos (rand : Fin 14 → Fin 8)
    (dateLabel : Fin 14 → String) :
    ∀ x ∈ generateSampleData rand dateLabel, 0 < x.completions := by
  intro x hx
  simp only [generateSampleData, List.mem_map] at hx
  obtain ⟨i, _, hi⟩ := hx
  subst hi
  show (0 : Int) < ((rand i : Nat) : Int) + 2
  have : (0 : Int) ≤ ((rand i : Nat) : Int) := Int.ofNat_nonneg _
  omega

lemma chartData_empty_streak (rand : Fin 14 → Fin 8) (dateLabel : Fin 14 → String) :
    calculateStreak (chartData [] rand dateLabel) = 14 := by
  rw [chartData_nil,
    calculateStreak_all_pos _ (generateSampleData_all_pos rand dateLabel)]
  simp [generateSampleData]

lemma foldl_add_completions_le (l : List DataPoint)
    (h : ∀ x ∈ l, 0 < x.completions) :
    ∀ acc : Int, acc ≤ l.foldl (fun sum item => sum + item.completions) acc := by
  induction l with
  | nil => intro acc; simp
  | cons x xs ih =>
    intro acc
    have hx : 0 < x.completions := h x (List.mem_cons_self x xs)
    have := ih (fun y hy => h y (List.mem_cons_of_mem x hy)) (acc + x.completions)
    simp only [List.foldl_cons]
    omega

lemma calculateTotal_pos (x : DataPoint) (xs : List DataPoint)
    (h : ∀ y ∈ x :: xs, 0 < y.completions) : 0 < calculateTotal (x :: xs) := by
  have hx : 0 < x.completions := h x (List.mem_cons_self x xs)
  have := foldl_add_completions_le xs
    (fun y hy => h y (List.mem_cons_of_mem x hy)) (0 + x.completions)
  unfold calculateTotal
  simp only [List.foldl_cons]
  omega

lemma chartData_empty_average_pos (rand : Fin 14 → Fin 8)
    (dateLabel : Fin 14 → String) :
    0 < calculateAverage (chartData [] rand dateLabel) := by
  rw [chartData_nil]
  have hall := generateSampleData_all_pos rand dateLabel
  have hlen : (generateSampleData rand dateLabel).length = 14 := by
    simp [generateSampleData]
  unfold calculateAverage
  rw [if_neg (by omega)]
  have hpos : 0 < calculateTotal (generateSampleData rand dateLabel) := by
    rcases hcase : generateSampleData rand dateLabel with _ | ⟨x, xs⟩
    · rw [hcase] at hlen; simp at hlen
    · exact calculateTotal_pos x xs (by rw [← hcase]; exact hall)
  apply div_pos
  · exact_mod_cast hpos
  · rw [hlen]; norm_num

/-- Modelled from the spec: the backend StreakCalculator source is not among the
available files.  Per the design, events are normalized to one satisfied marker per
calendar period; for a daily habit a period is a calendar day in the owner's
timezone, so an event is represented by its day index and a day is satisfied when
some event falls on it (multiple events on one day coalesce).  `runBack` counts
the consecutive satisfied days `d, d-1, d-2, ...`; the fuel bounds the walk and is
always instantiated with `events.length`, which no run of distinct satisfied days
can exceed. -/
def runBack (events : List Int) : Nat → Int → Nat
  | 0, _ => 0
  | fuel + 1, d => if d ∈ events then runBack events fuel (d - 1) + 1 else 0

/-- Modelled from the spec: the current streak walks days backward from `today`.
If today is satisfied it starts the run; if today is unsatisfied it is still open,
so it is skipped without breaking the run, and the walk starts at yesterday. -/
def currentStreakDaily (events : List Int) (today : Int) : Nat :=
  if today ∈ events then runBack events events.length today
  else runBack events events.length (today - 1)

/-- Modelled from the spec: the longest streak is the maximum run of consecutive
satisfied days anywhere in the history; every maximal run is counted by `runBack`
started at its most recent day, which is itself a satisfied day. -/
def longestStreakDaily (events : List Int) : Nat :=
  (events.map fun d => runBack events events.length d).foldr max 0

/-- Modelled from the spec: `computeStreak` for a daily habit returns the pair
`(current, longest)`. -/
def computeStreakDaily (events : List Int) (today : Int) : Nat × Nat :=
  (currentStreakDaily events today, longestStreakDaily events)

/-- Integer clamp to a closed interval, as used for the happiness update. -/
def clampI (x lo hi : Int) : Int := max lo (min hi x)

/-- Modelled from the spec: the per-user pet state mutated only by the
GamificationEngine (`pet_level`, `pet_experience`, `pet_happiness` on the user
record). -/
structure PetState where
  level : Nat
  experience : Nat
  happiness : Int
  deriving DecidableEq

/-- Modelled from the spec: the level-up loop of the GamificationEngine —
`while experience >= level * 100 { experience -= level * 100; level += 1 }`.
The fuel bounds the loop and is always instantiated with `experience + 1`,
which the number of iterations cannot reach. -/
def levelLoop : Nat → Nat → Nat → Nat × Nat
  | 0, level, xp => (level, xp)
  | fuel + 1, level, xp =>
    if level * 100 ≤ xp then levelLoop fuel (level + 1) (xp - level * 100)
    else (level, xp)

/-- Modelled from the spec: `GamificationEngine.applyCompletion` — the backend
engine source is not among the available files.  It adds 10 experience, runs the
level-up loop, and clamps `happiness + 2` to `[0, 100]`. -/
def applyCompletion (pet : PetState) : PetState :=
  let xp := pet.experience + 10
  let r := levelLoop (xp + 1) pet.level xp
  { level := r.1, experience := r.2, happiness := clampI (pet.happiness + 2) 0 100 }

/-- Rational clamp to a closed interval, used for the defensive risk-score clamp. -/
def clampQ (x lo hi : Rat) : Rat := max lo (min hi x)

/-- `PredictionResponse` from the frontend API service layer (api.ts), doubling as
the PredictionResult of the spec. -/
structure PredictionResult where
  risk_score : Rat
  success_probability : Rat
  feature_importance : List (String × Rat)
  recommendation : String

/-- Modelled from the spec: the recommendation rule table keyed on risk tier. -/
def recommendationFor (risk : Rat) : String :=
  if 7 / 10 ≤ risk then "high risk"
  else if 4 / 10 ≤ risk then "moderate risk"
  else "on track"

/-- Modelled from the spec: `RiskPredictor.predict` — the backend predictor source
is not among the available files.  The loaded model is abstracted as the
probability function it computes on a feature vector; the risk score is that
probability clamped defensively to `[0, 1]`, the success probability is exactly
`1 - risk_score`, and the cached global importance ranking is passed through. -/
def predict (model : List Rat → Rat) (importances : List (String × Rat))
    (features : List Rat) : PredictionResult :=
  let r := clampQ (model features) 0 1
  { risk_score := r
    success_probability := 1 - r
    feature_importance := importances
    recommendation := recommendationFor r }

/-- Modelled from the spec: the version tag the serving side accepts. -/
def artifactVersion : Nat := 1

/-- Modelled from the spec: a persisted model artifact — the fitted model, its
cached importance ranking, and an embedded version tag. -/
structure Artifact where
  version : Nat
  model : List Rat → Rat
  importances : List (String × Rat)

/-- Modelled from the spec: the possible outcomes of loading the model artifact —
the file is missing, it fails to read or parse, or it is loaded. -/
inductive ArtifactLoad where
  | missing : ArtifactLoad
  | unreadable : ArtifactLoad
  | loaded : Artifact → ArtifactLoad

/-- Modelled from the spec: the distinct typed failure of the RiskPredictor. -/
inductive PredictError where
  | modelNotReady : PredictError
  deriving DecidableEq

/-- Modelled from the spec: serving-side prediction against the artifact load
outcome — a missing, unreadable, or version-incompatible artifact yields the
typed `modelNotReady` error, never a fabricated score. -/
def loadAndPredict (load : ArtifactLoad) (features : List Rat) :
    Except PredictError PredictionResult :=
  match load with
  | .missing => .error .modelNotReady
  | .unreadable => .error .modelNotReady
  | .loaded a =>
    if a.version = artifactVersion then .ok (predict a.model a.importances features)
    else .error .modelNotReady

/-- The three visual states of the Pet component. -/
inductive PetVisualState where
  | happy : PetVisualState
  | neutral : PetVisualState
  | sad : PetVisualState
  deriving DecidableEq

/-- `getPetState` from Pet.tsx: happiness at least 80 is happy, at least 50 is
neutral, below 50 is sad. -/
def getPetState (happiness : Int) : PetVisualState :=
  if happiness ≥ 80 then .happy
  else if happiness ≥ 50 then .neutral
  else .sad

/-- `baseColor` from Pet.tsx `renderPet`, a function of the state only. -/
def baseColor : PetVisualState → String
  | .happy => "#10B981"
  | .neutral => "#F59E0B"
  | .sad => "#EF4444"

/-- `mouthPath` from Pet.tsx `renderPet`, a function of the state only. -/
def mouthPath : PetVisualState → String
  | .happy => "M 40 55 Q 50 65 60 55"
  | .neutral => "M 40 60 L 60 60"
  | .sad => "M 40 65 Q 50 55 60 65"

/-- The status message from Pet.tsx, a function of the state only. -/
def statusMessage : PetVisualState → String
  | .happy => "Your pet is thriving! Keep up the great work!"
  | .neutral => "Your pet is doing okay. Complete more habits to boost happiness!"
  | .sad => "Your pet needs attention! Complete some habits to cheer them up."

lemma runBack_of_not_mem (events : List Int) (fuel : Nat) (d : Int)
    (h : d ∉ events) : runBack events fuel d = 0 := by
  cases fuel with
  | zero => rfl
  | succ n => simp [runBack, h]

lemma le_foldr_max (l : List Nat) (x : Nat) (hx : x ∈ l) :
    x ≤ l.foldr max 0 := by
  induction l with
  | nil => cases hx
  | cons y ys ih =>
    rcases List.mem_cons.mp hx with h | h
    · subst h; exact le_max_left _ _
    · exact le_trans (ih h) (le_max_right _ _)

lemma runBack_le_longest (events : List Int) (d : Int) (hd : d ∈ events) :
    runBack events events.length d ≤ longestStreakDaily events :=
  le_foldr_max _ _ (List.mem_map.mpr ⟨d, hd, rfl⟩)

/-- C1: on the daily chart data (one entry per consecutive calendar day),
`calculateStreak` returns the full length when every day is completed — so three
consecutive completed days D, D+1, D+2 give current = 3 — and when a gap day
(zero completions) is followed by completed days only, the streak resets and the
result is exactly the length of the most recent unbroken run after the gap. -/
theorem calculateStreak_consecutive_and_gap :
    (∀ data : List DataPoint, (∀ x ∈ data, 0 < x.completions) →
      calculateStreak data = data.length) ∧
    (∀ (pre : List DataPoint) (gap : DataPoint) (post : List DataPoint),
      gap.completions = 0 → (∀ x ∈ post, 0 < x.completions) →
      calculateStreak (pre ++ gap :: post) = post.length) :=
  ⟨calculateStreak_all_pos, calculateStreak_gap⟩

/-- Witness for C1: days D, D+1, D+2 all completed give streak 3; a gap on D+1
with D and D+2 completed gives streak 1, the length of the run after the gap. -/
theorem calculateStreak_consecutive_and_gap_witness :
    calculateStreak [⟨"D", 1, none⟩, ⟨"D+1", 1, none⟩, ⟨"D+2", 1, none⟩] = 3 ∧
    calculateStreak [⟨"D", 1, none⟩, ⟨"D+1", 0, none⟩, ⟨"D+2", 1, none⟩] = 1 := by
  constructor
  · have h := calculateStreak_consecutive_and_gap.1
      [⟨"D", 1, none⟩, ⟨"D+1", 1, none⟩, ⟨"D+2", 1, none⟩] (by decide)
    simpa using h
  · have h := calculateStreak_consecutive_and_gap.2
      [⟨"D", 1, none⟩] ⟨"D+1", 0, none⟩ [⟨"D+2", 1, none⟩] rfl (by decide)
    simpa using h

/-- C2 counterexample: with an empty data array the HabitGraph component switches
to generated sample data, whose 14 entries all have completions at least 2, so the
displayed current streak is 14, not 0 (here at the all-zero random draws). -/
theorem chartData_empty_displayed_streak_ne_zero :
    calculateStreak (chartData [] (fun _ => 0) (fun _ => "")) ≠ 0 := by
  rw [chartData_empty_streak]
  decide

/-- C2 amended: the streak computation on an empty history yields 0 (frontend
`calculateStreak`) and `(0, 0)` (spec-level `computeStreakDaily`), and
`calculateAverage` on empty data is 0 rather than dividing by zero; however, for
an empty data array the component substitutes generated sample data, so the
displayed streak is 14 and the displayed average is positive, not 0. -/
theorem empty_history_neutral_defaults :
    calculateStreak [] = 0 ∧ calculateAverage [] = 0 ∧
    (∀ today : Int, computeStreakDaily [] today = (0, 0)) ∧
    (∀ (rand : Fin 14 → Fin 8) (dateLabel : Fin 14 → String),
      calculateStreak (chartData [] rand dateLabel) = 14 ∧
      0 < calculateAverage (chartData [] rand dateLabel)) := by
  refine ⟨rfl, rfl, ?_, ?_⟩
  · intro today
    simp [computeStreakDaily, currentStreakDaily, longestStreakDaily, runBack]
  · intro rand dateLabel
    exact ⟨chartData_empty_streak rand dateLabel,
      chartData_empty_average_pos rand dateLabel⟩

/-- C3 counterexample: on the empty data array the displayed statistics depend on
the random draws behind `generateSampleData`: all-zero draws yield daily average
2, all-seven draws yield daily average 9, so recomputation on the same (empty)
input is not deterministic. -/
theorem chartStats_depend_on_randomness :
    calculateAverage (chartData [] (fun _ => 0) (fun _ => "")) ≠
      calculateAverage (chartData [] (fun _ => 7) (fun _ => "")) := by
  have h1 : calculateTotal (chartData [] (fun _ => 0) (fun _ => "")) = 28 := by decide
  have h2 : calculateTotal (chartData [] (fun _ => 7) (fun _ => "")) = 126 := by decide
  have l1 : (chartData [] (fun _ => 0) (fun _ => "")).length = 14 := by decide
  have l2 : (chartData [] (fun _ => 7) (fun _ => "")).length = 14 := by decide
  unfold calculateAverage
  rw [if_neg (by omega), if_neg (by omega), h1, h2, l1, l2]
  norm_num

/-- C3 amended: the statistics helpers are pure functions of the data they are
given — for every non-empty data array the displayed streak, average, and total
are independent of the random sample source, so recomputing yields identical
results; determinism fails only for the empty array, where fresh random sample
data is substituted. -/
theorem chartStats_deterministic_on_nonempty :
    ∀ (data : List DataPoint) (r1 r2 : Fin 14 → Fin 8)
      (d1 d2 : Fin 14 → String), data ≠ [] →
      calculateStreak (chartData data r1 d1) = calculateStreak (chartData data r2 d2) ∧
      calculateAverage (chartData data r1 d1) = calculateAverage (chartData data r2 d2) ∧
      calculateTotal (chartData data r1 d1) = calculateTotal (chartData data r2 d2) := by
  intro data r1 r2 d1 d2 h
  rw [chartData_of_ne_nil data r1 d1 h, chartData_of_ne_nil data r2 d2 h]
  exact ⟨rfl, rfl, rfl⟩

/-- Witness for C3: a one-entry data array gives the same statistics under two
different random sources. -/
theorem chartStats_deterministic_on_nonempty_witness :
    calculateStreak (chartData [⟨"D", 1, none⟩] (fun _ => 0) (fun _ => "")) =
      calculateStreak (chartData [⟨"D", 1, none⟩] (fun _ => 7) (fun _ => "x")) ∧
    calculateAverage (chartData [⟨"D", 1, none⟩] (fun _ => 0) (fun _ => "")) =
      calculateAverage (chartData [⟨"D", 1, none⟩] (fun _ => 7) (fun _ => "x")) ∧
    calculateTotal (chartData [⟨"D", 1, none⟩] (fun _ => 0) (fun _ => "")) =
      calculateTotal (chartData [⟨"D", 1, none⟩] (fun _ => 7) (fun _ => "x")) :=
  chartStats_deterministic_on_nonempty [⟨"D", 1, none⟩] (fun _ => 0) (fun _ => 7)
    (fun _ => "") (fun _ => "x") (by decide)

/-- C10: `calculateAverage` returns 0 on the empty list, and on every non-empty
list it returns `calculateTotal data / data.length`; the division is guarded by
the length check, so the empty case never divides by zero. -/
theorem calculateAverage_guarded :
    calculateAverage [] = 0 ∧
    ∀ data : List DataPoint, data ≠ [] →
      calculateAverage data = (calculateTotal data : Rat) / (data.length : Rat) := by
  refine ⟨rfl, ?_⟩
  intro data h
  unfold calculateAverage
  rw [if_neg fun hl => h (List.length_eq_zero.mp hl)]

/-- Witness for C10: a concrete one-entry list has average total/length. -/
theorem calculateAverage_guarded_witness :
    ([⟨"D", 3, none⟩] : List DataPoint) ≠ [] ∧
    calculateAverage [⟨"D", 3, none⟩] =
      (calculateTotal [⟨"D", 3, none⟩] : Rat) /
        (([⟨"D", 3, none⟩] : List DataPoint).length : Rat) :=
  ⟨by decide, calculateAverage_guarded.2 [⟨"D", 3, none⟩] (by decide)⟩

lemma clampI_bounds (x lo hi : Int) (h : lo ≤ hi) :
    lo ≤ clampI x lo hi ∧ clampI x lo hi ≤ hi :=
  ⟨le_max_left _ _, max_le h (min_le_left _ _)⟩

lemma applyCompletion_happiness (pet : PetState) :
    (applyCompletion pet).happiness = clampI (pet.happiness + 2) 0 100 := rfl

/-- C4: after every recomputation, the current streak never exceeds the longest
streak; both components are natural numbers and hence non-negative.  The current
streak is a run ending at a satisfied day (or it is zero), and every such run is
one of the runs the longest-streak pass maximizes over. -/
theorem computeStreakDaily_current_le_longest :
    ∀ (events : List Int) (today : Int),
      (computeStreakDaily events today).1 ≤ (computeStreakDaily events today).2 := by
  intro events today
  show currentStreakDaily events today ≤ longestStreakDaily events
  unfold currentStreakDaily
  split_ifs with h
  · exact runBack_le_longest events today h
  · by_cases h' : (today - 1) ∈ events
    · exact runBack_le_longest events (today - 1) h'
    · rw [runBack_of_not_mem events events.length (today - 1) h']
      exact Nat.zero_le _

/-- C5: `applyCompletion` starting at level 1 with 95 experience yields 5
experience and level 2, for any starting happiness: 95 + 10 = 105, the loop fires
once (105 at least 1 * 100), leaving 105 - 100 = 5 and level 2, and 5 is below
2 * 100 so the loop stops. -/
theorem applyCompletion_level_up_example :
    ∀ h : Int, (applyCompletion ⟨1, 95, h⟩).experience = 5 ∧
      (applyCompletion ⟨1, 95, h⟩).level = 2 :=
  fun _ => ⟨rfl, rfl⟩

/-- C6: every call of `applyCompletion` sets happiness to
`clamp(happiness + 2, 0, 100)`, and therefore any positive number of repeated
calls, from any starting state, leaves happiness inside `[0, 100]`. -/
theorem applyCompletion_happiness_in_range :
    ∀ (pet : PetState) (n : Nat),
      (applyCompletion pet).happiness = clampI (pet.happiness + 2) 0 100 ∧
      0 ≤ (applyCompletion^[n + 1] pet).happiness ∧
      (applyCompletion^[n + 1] pet).happiness ≤ 100 := by
  intro pet n
  refine ⟨applyCompletion_happiness pet, ?_, ?_⟩
  · rw [Function.iterate_succ_apply', applyCompletion_happiness]
    exact (clampI_bounds _ 0 100 (by norm_num)).1
  · rw [Function.iterate_succ_apply', applyCompletion_happiness]
    exact (clampI_bounds _ 0 100 (by norm_num)).2

/-- C7: every result of `predict` has a risk score inside `[0, 1]` (the defensive
clamp) and a success probability exactly equal to one minus the risk score. -/
theorem predict_risk_bounds :
    ∀ (model : List Rat → Rat) (importances : List (String × Rat))
      (features : List Rat),
      0 ≤ (predict model importances features).risk_score ∧
      (predict model importances features).risk_score ≤ 1 ∧
      (predict model importances features).success_probability =
        1 - (predict model importances features).risk_score := by
  intro model importances features
  refine ⟨?_, ?_, rfl⟩
  · show (0 : Rat) ≤ clampQ (model features) 0 1
    exact le_max_left _ _
  · show clampQ (model features) 0 1 ≤ 1
    exact max_le (by norm_num) (min_le_left _ _)

/-- C8: a missing, unreadable, or version-incompatible model artifact makes
`loadAndPredict` fail with the distinct typed `modelNotReady` error, and every
successful result comes from a loaded, version-compatible artifact through the
real model — never a fabricated score. -/
theorem loadAndPredict_not_ready :
    (∀ features : List Rat,
      loadAndPredict .missing features = .error .modelNotReady) ∧
    (∀ features : List Rat,
      loadAndPredict .unreadable features = .error .modelNotReady) ∧
    (∀ (a : Artifact) (features : List Rat), a.version ≠ artifactVersion →
      loadAndPredict (.loaded a) features = .error .modelNotReady) ∧
    (∀ (load : ArtifactLoad) (features : List Rat) (r : PredictionResult),
      loadAndPredict load features = .ok r →
      ∃ a : Artifact, load = .loaded a ∧ a.version = artifactVersion ∧
        r = predict a.model a.importances features) := by
  refine ⟨fun _ => rfl, fun _ => rfl, ?_, ?_⟩
  · intro a features h
    simp [loadAndPredict, h]
  · intro load features r h
    cases load with
    | missing => simp [loadAndPredict] at h
    | unreadable => simp [loadAndPredict] at h
    | loaded a =>
      by_cases hv : a.version = artifactVersion
      · refine ⟨a, rfl, hv, ?_⟩
        simp only [loadAndPredict, if_pos hv, Except.ok.injEq] at h
        exact h.symm
      · simp [loadAndPredict, hv] at h

/-- Witness for C8: a loaded artifact tagged with version 0 is incompatible with
the accepted version and is rejected with the `modelNotReady` error. -/
theorem loadAndPredict_not_ready_witness :
    (Artifact.version ⟨0, fun _ => 0, []⟩) ≠ artifactVersion ∧
    loadAndPredict (.loaded ⟨0, fun _ => 0, []⟩) [] = .error .modelNotReady :=
  ⟨by decide, loadAndPredict_not_ready.2.2.1 ⟨0, fun _ => 0, []⟩ [] (by decide)⟩

/-- C9: `getPetState` is a total three-way partition of the happiness range —
happy exactly when happiness is at least 80, neutral exactly between 50 and 79,
sad exactly below 50 — and the returned state alone determines the pet color,
mouth path, and status message. -/
theorem getPetState_partition :
    ∀ h h1 h2 : Int,
      ((getPetState h = .happy ↔ 80 ≤ h) ∧
       (getPetState h = .neutral ↔ 50 ≤ h ∧ h < 80) ∧
       (getPetState h = .sad ↔ h < 50)) ∧
      (getPetState h1 = getPetState h2 →
        baseColor (getPetState h1) = baseColor (getPetState h2) ∧
        mouthPath (getPetState h1) = mouthPath (getPetState h2) ∧
        statusMessage (getPetState h1) = statusMessage (getPetState h2)) := by
  intro h h1 h2
  constructor
  · unfold getPetState
    split_ifs with ha hb <;> refine ⟨?_, ?_, ?_⟩ <;> simp <;> omega
  · intro heq
    rw [heq]
    exact ⟨rfl, rfl, rfl⟩

/-- Witness for C9: happiness 85 and 90 both map to the happy state and share the
same color, mouth path, and status message. -/
theorem getPetState_partition_witness :
    getPetState 85 = getPetState 90 ∧
    (baseColor (getPetState 85) = baseColor (getPetState 90) ∧
     mouthPath (getPetState 85) = mouthPath (getPetState 90) ∧
     statusMessage (getPetState 85) = statusMessage (getPetState 90)) :=
  ⟨by decide, (getPetState_partition 0 85 90).2 (by decide)⟩
